import Mathlib

/-!
Shallow embedding of the slidecraft puzzle engine.

Source files modelled here:
- src/shared/src/types/game.ts   (data model, calculateStarRating)
- src/shared/src/game/movement.ts (calculateDestination and its helpers)
- src/shared/src/game/state.ts    (checkWin, createGameState, applyMove)
- server solutionRepository (submitSolution replay loop, modelled as validateSolution)
- src/client/src/components/ResultsScreen/ResultsScreen.tsx (formatTime, generateShareText)

JavaScript numbers holding board coordinates are modelled as Int (the code
performs only integer arithmetic on them); the board dimension is a Nat.
Calls to Date.now() are modelled by threading an explicit clock argument.
The unbounded while(true) loop of calculateDestination is modelled as a
fueled recursion; theorems below prove that fuel boardSize + 1 always
reaches a break of the loop, so the fueled function agrees with the loop.
-/

namespace SlideCraft

/-- Position on the game board, origin top-left (game.ts). -/
structure Position where
  x : Int
  y : Int
deriving DecidableEq

/-- Ship colors; red is the rescue ship (game.ts). -/
inductive ShipColor
  | red
  | blue
  | green
  | yellow
deriving DecidableEq

/-- A ship piece on the board (game.ts). -/
structure Ship where
  color : ShipColor
  position : Position
deriving DecidableEq

/-- Direction a ship can move (game.ts). -/
inductive Direction
  | up
  | down
  | left
  | right
deriving DecidableEq

/-- Obstacles: asteroid blocks a whole cell, forceField blocks a cell edge (game.ts). -/
inductive Obstacle
  | asteroid (position : Position)
  | forceField (position : Position) (edge : Direction)
deriving DecidableEq

/-- Complete puzzle configuration (game.ts). -/
structure Puzzle where
  id : Nat
  date : String
  ships : List Ship
  obstacles : List Obstacle
  astronaut : Position
  optimalMoves : Int
deriving DecidableEq

/-- A single move in the game (game.ts). -/
structure Move where
  ship : ShipColor
  direction : Direction
deriving DecidableEq

/-- Current game state during play (game.ts). `completionTime` being `none`
models the `undefined` field value. -/
structure GameState where
  puzzle : Puzzle
  ships : List Ship
  moves : List Move
  moveCount : Nat
  startTime : Int
  completed : Bool
  completionTime : Option Int
deriving DecidableEq

/-- Star rating from move count vs optimal (game.ts, calculateStarRating). -/
def calculateStarRating (moves optimal : Int) : Int :=
  let diff := moves - optimal
  if diff = 0 then 5
  else if diff = 1 then 4
  else if diff ≤ 3 then 3
  else if diff ≤ 5 then 2
  else 1

/-- Direction vectors for movement (movement.ts, DIRECTION_VECTORS). -/
def DIRECTION_VECTORS : Direction → Position
  | Direction.up => ⟨0, -1⟩
  | Direction.down => ⟨0, 1⟩
  | Direction.left => ⟨-1, 0⟩
  | Direction.right => ⟨1, 0⟩

/-- Check if a position is within board bounds (movement.ts, isInBounds). -/
def isInBounds (pos : Position) (boardSize : Nat) : Bool :=
  0 ≤ pos.x && pos.x < (boardSize : Int) && 0 ≤ pos.y && pos.y < (boardSize : Int)

/-- Check if a position is occupied by an asteroid (movement.ts, isAsteroid). -/
def isAsteroid (pos : Position) (obstacles : List Obstacle) : Bool :=
  obstacles.any fun o =>
    match o with
    | Obstacle.asteroid p => p.x == pos.x && p.y == pos.y
    | Obstacle.forceField _ _ => false

/-- Check if a position is occupied by another ship (movement.ts, isOccupiedByShip). -/
def isOccupiedByShip (pos : Position) (ships : List Ship) (excludeShip : Ship) : Bool :=
  ships.any fun s =>
    s.color != excludeShip.color && s.position.x == pos.x && s.position.y == pos.y

/-- Opposite of a direction (movement.ts, the oppositeDirection record inside
isBlockedByForceField). -/
def oppositeDirection : Direction → Direction
  | Direction.up => Direction.down
  | Direction.down => Direction.up
  | Direction.left => Direction.right
  | Direction.right => Direction.left

/-- Check if movement from one cell to an adjacent cell is blocked by a force
field, in either of its two representations (movement.ts, isBlockedByForceField). -/
def isBlockedByForceField (fromPos toPos : Position) (direction : Direction)
    (obstacles : List Obstacle) : Bool :=
  let exitBlocked := obstacles.any fun o =>
    match o with
    | Obstacle.forceField p e => p.x == fromPos.x && p.y == fromPos.y && e == direction
    | Obstacle.asteroid _ => false
  let entryBlocked := obstacles.any fun o =>
    match o with
    | Obstacle.forceField p e => p.x == toPos.x && p.y == toPos.y && e == oppositeDirection direction
    | Obstacle.asteroid _ => false
  exitBlocked || entryBlocked

/-- Fueled translation of the while(true) loop body of calculateDestination
(movement.ts): one fuel unit per loop iteration; when fuel runs out the
current cell is returned (theorems below show fuel boardSize + 1 always
suffices to reach one of the four break conditions). -/
def slideLoop (ship : Ship) (direction : Direction) (ships : List Ship)
    (obstacles : List Obstacle) (boardSize : Nat) : Nat → Position → Position
  | 0, current => current
  | fuel + 1, current =>
    let v := DIRECTION_VECTORS direction
    let next : Position := ⟨current.x + v.x, current.y + v.y⟩
    if !(isInBounds next boardSize) then current
    else if isAsteroid next obstacles then current
    else if isOccupiedByShip next ships ship then current
    else if isBlockedByForceField current next direction obstacles then current
    else slideLoop ship direction ships obstacles boardSize fuel next

/-- Instrumented variant of `slideLoop` that returns `none` when the loop
needs more than `fuel` iterations to reach a break; used to state the
iteration-count claims. -/
def slideLoopMeter (ship : Ship) (direction : Direction) (ships : List Ship)
    (obstacles : List Obstacle) (boardSize : Nat) : Nat → Position → Option Position
  | 0, _ => none
  | fuel + 1, current =>
    let v := DIRECTION_VECTORS direction
    let next : Position := ⟨current.x + v.x, current.y + v.y⟩
    if !(isInBounds next boardSize) then some current
    else if isAsteroid next obstacles then some current
    else if isOccupiedByShip next ships ship then some current
    else if isBlockedByForceField current next direction obstacles then some current
    else slideLoopMeter ship direction ships obstacles boardSize fuel next

/-- Calculate where a ship ends up when moved in a direction (movement.ts,
calculateDestination). The source's boardSize parameter defaults to 16 at
every call site in state.ts. -/
def calculateDestination (ship : Ship) (direction : Direction) (ships : List Ship)
    (obstacles : List Obstacle) (boardSize : Nat) : Position :=
  slideLoop ship direction ships obstacles boardSize (boardSize + 1) ship.position

/-- Check if the game is won, red ship on astronaut (state.ts, checkWin). -/
def checkWin (ships : List Ship) (astronaut : Position) : Bool :=
  match ships.find? (fun s => s.color == ShipColor.red) with
  | none => false
  | some redShip => redShip.position.x == astronaut.x && redShip.position.y == astronaut.y

/-- Create initial game state from a puzzle (state.ts, createGameState); the
source's Date.now() is the explicit `now` argument. -/
def createGameState (now : Int) (puzzle : Puzzle) : GameState :=
  { puzzle := puzzle
    ships := puzzle.ships.map (fun s => { color := s.color, position := s.position })
    moves := []
    moveCount := 0
    startTime := now
    completed := false
    completionTime := none }

/-- Find the first ship of a color together with its index: the combination
of `state.ships.findIndex(...)` and the subsequent `state.ships[shipIndex]`
lookup in applyMove (state.ts). `none` models findIndex returning -1. -/
def findShipIdx (shipColor : ShipColor) : List Ship → Option (Nat × Ship)
  | [] => none
  | s :: rest =>
    if s.color = shipColor then some (0, s)
    else (findShipIdx shipColor rest).map (fun p => (p.1 + 1, p.2))

/-- Apply a move to the game state, returning a new state (state.ts,
applyMove); the source's Date.now() is the explicit `now` argument, and
Math.floor of the seconds quotient is Int.fdiv. -/
def applyMove (now : Int) (state : GameState) (shipColor : ShipColor)
    (direction : Direction) : GameState :=
  match findShipIdx shipColor state.ships with
  | none => state
  | some (shipIndex, ship) =>
    let newPosition :=
      calculateDestination ship direction state.ships state.puzzle.obstacles 16
    if newPosition.x = ship.position.x ∧ newPosition.y = ship.position.y then state
    else
      let newShips := state.ships.set shipIndex { ship with position := newPosition }
      let newMove : Move := { ship := shipColor, direction := direction }
      let isWin := checkWin newShips state.puzzle.astronaut
      { state with
        ships := newShips
        moves := state.moves ++ [newMove]
        moveCount := state.moveCount + 1
        completed := isWin
        completionTime := if isWin then some ((now - state.startTime).fdiv 1000) else none }

/-- Server-side solution validation (solutionRepository, submitSolution
lines 83-95): replay the submitted moves from a fresh game state and test
the final ships with checkWin against the puzzle's astronaut. The clock
arguments do not influence ship positions, so they are fixed at 0. -/
def validateSolution (puzzle : Puzzle) (moves : List Move) : Bool :=
  let finalState :=
    moves.foldl (fun s m => applyMove 0 s m.ship m.direction) (createGameState 0 puzzle)
  checkWin finalState.ships puzzle.astronaut

/-- Repeat a character n times: the JavaScript string repeat used for the
star row (ResultsScreen.tsx). -/
def strRepeat (c : Char) (n : Nat) : String :=
  String.mk (List.replicate n c)

/-- JavaScript String.padStart with a pad character (ResultsScreen.tsx uses
padStart(2, char zero) on the seconds). -/
def padStart (s : String) (targetLen : Nat) (c : Char) : String :=
  String.mk (List.replicate (targetLen - s.length) c) ++ s

/-- Format seconds as M:SS (ResultsScreen.tsx, formatTime). -/
def formatTime (seconds : Nat) : String :=
  let mins := seconds / 60
  let secs := seconds % 60
  toString mins ++ ":" ++ padStart (toString secs) 2 '0'

/-- Share text for a solved puzzle (ResultsScreen.tsx, generateShareText). -/
def generateShareText (puzzleId : Nat) (optimalMoves : Nat) (moveCount : Nat)
    (timeSeconds : Nat) (starRating : Nat) : String :=
  let stars := strRepeat '★' starRating ++ strRepeat '☆' (5 - starRating)
  "SlideCraft #" ++ toString puzzleId ++ "\n" ++ stars ++ "\nMoves: " ++
    toString moveCount ++ "/" ++ toString optimalMoves ++ "\nTime: " ++
    formatTime timeSeconds

/-- Distance from a position to the board edge faced in a direction; the
loop variant used to bound the iteration count of the slide loop (proof
infrastructure, not from the source). -/
def distToEdge (direction : Direction) (pos : Position) (boardSize : Nat) : Nat :=
  match direction with
  | Direction.up => pos.y.toNat
  | Direction.down => ((boardSize : Int) - 1 - pos.y).toNat
  | Direction.left => pos.x.toNat
  | Direction.right => ((boardSize : Int) - 1 - pos.x).toNat

/-- Concrete puzzle used as test input, taken from createTestPuzzle in
state.test.ts: red can reach the astronaut in one slide to the right. -/
def puzzleA : Puzzle :=
  { id := 1
    date := "2025-01-01"
    ships := [{ color := ShipColor.red, position := ⟨0, 0⟩ },
              { color := ShipColor.blue, position := ⟨5, 5⟩ },
              { color := ShipColor.green, position := ⟨10, 10⟩ },
              { color := ShipColor.yellow, position := ⟨15, 15⟩ }]
    obstacles := []
    astronaut := ⟨15, 0⟩
    optimalMoves := 1 }

/-- Concrete puzzle whose red ship starts on the astronaut cell. -/
def puzzleRedOnGoal : Puzzle :=
  { id := 2
    date := "2025-01-02"
    ships := [{ color := ShipColor.red, position := ⟨3, 3⟩ }]
    obstacles := []
    astronaut := ⟨3, 3⟩
    optimalMoves := 0 }

example :
    calculateDestination ⟨ShipColor.red, ⟨5, 5⟩⟩ Direction.right [] [] 16 = ⟨15, 5⟩ := by
  decide

example :
    calculateDestination ⟨ShipColor.red, ⟨5, 5⟩⟩ Direction.right []
      [Obstacle.asteroid ⟨10, 5⟩] 16 = ⟨9, 5⟩ := by
  decide

example :
    calculateDestination ⟨ShipColor.red, ⟨5, 5⟩⟩ Direction.right []
      [Obstacle.forceField ⟨7, 5⟩ Direction.right] 16 = ⟨7, 5⟩ := by
  decide

example :
    calculateDestination ⟨ShipColor.red, ⟨5, 5⟩⟩ Direction.right
      [⟨ShipColor.red, ⟨5, 5⟩⟩, ⟨ShipColor.blue, ⟨10, 5⟩⟩] [] 16 = ⟨9, 5⟩ := by
  decide

example :
    generateShareText 7 5 6 65 4 = "SlideCraft #7\n★★★★☆\nMoves: 6/5\nTime: 1:05" := by
  decide

/-- Two positions are equal exactly when both coordinates agree. -/
theorem Position.eq_iff (p q : Position) : p = q ↔ p.x = q.x ∧ p.y = q.y := by
  cases p
  cases q
  simp [Position.mk.injEq]

/-- The opposite direction map is an involution. -/
theorem oppositeDirection_involutive (d : Direction) :
    oppositeDirection (oppositeDirection d) = d := by
  cases d <;> rfl

/-- Any property preserved by each committed step of the slide loop holds at
the loop's result; the step hypothesis may assume all four break conditions
failed. -/
theorem slideLoop_invariant (ship : Ship) (direction : Direction) (ships : List Ship)
    (obstacles : List Obstacle) (boardSize : Nat) (P : Position → Prop)
    (hstep : ∀ cur : Position,
      P cur →
      isInBounds ⟨cur.x + (DIRECTION_VECTORS direction).x,
        cur.y + (DIRECTION_VECTORS direction).y⟩ boardSize = true →
      isAsteroid ⟨cur.x + (DIRECTION_VECTORS direction).x,
        cur.y + (DIRECTION_VECTORS direction).y⟩ obstacles = false →
      isOccupiedByShip ⟨cur.x + (DIRECTION_VECTORS direction).x,
        cur.y + (DIRECTION_VECTORS direction).y⟩ ships ship = false →
      isBlockedByForceField cur ⟨cur.x + (DIRECTION_VECTORS direction).x,
        cur.y + (DIRECTION_VECTORS direction).y⟩ direction obstacles = false →
      P ⟨cur.x + (DIRECTION_VECTORS direction).x,
        cur.y + (DIRECTION_VECTORS direction).y⟩) :
    ∀ (fuel : Nat) (current : Position), P current →
      P (slideLoop ship direction ships obstacles boardSize fuel current) := by
  intro fuel
  induction fuel with
  | zero => intro current h; simpa [slideLoop] using h
  | succ n ih =>
    intro current h
    simp only [slideLoop]
    split
    · exact h
    · rename_i h1
      split
      · exact h
      · rename_i h2
        split
        · exact h
        · rename_i h3
          split
          · exact h
          · rename_i h4
            refine ih _ (hstep current h ?_ ?_ ?_ ?_)
            · simpa using h1
            · simpa using h2
            · simpa using h3
            · simpa using h4

/-- Each committed step of the slide loop strictly decreases the distance to
the faced board edge. -/
theorem distToEdge_step (direction : Direction) (cur : Position) (boardSize : Nat)
    (h : isInBounds ⟨cur.x + (DIRECTION_VECTORS direction).x,
      cur.y + (DIRECTION_VECTORS direction).y⟩ boardSize = true) :
    distToEdge direction ⟨cur.x + (DIRECTION_VECTORS direction).x,
      cur.y + (DIRECTION_VECTORS direction).y⟩ boardSize <
      distToEdge direction cur boardSize := by
  cases direction <;>
    (simp only [isInBounds, DIRECTION_VECTORS, distToEdge, Bool.and_eq_true,
      decide_eq_true_eq] at h ⊢) <;> omega

/-- The distance to the faced edge of an in-bounds cell is below the board
size. -/
theorem distToEdge_lt (direction : Direction) (pos : Position) (boardSize : Nat)
    (h : isInBounds pos boardSize = true) :
    distToEdge direction pos boardSize < boardSize := by
  cases direction <;>
    (simp only [isInBounds, distToEdge, Bool.and_eq_true, decide_eq_true_eq] at h ⊢) <;> omega

/-- With fuel exceeding the distance to the faced edge, the metered slide
loop reaches a break. -/
theorem slideLoopMeter_some_of_lt (ship : Ship) (direction : Direction) (ships : List Ship)
    (obstacles : List Obstacle) (boardSize : Nat) :
    ∀ (fuel : Nat) (current : Position),
      distToEdge direction current boardSize < fuel →
      ∃ p : Position,
        slideLoopMeter ship direction ships obstacles boardSize fuel current = some p := by
  intro fuel
  induction fuel with
  | zero => intro current h; omega
  | succ n ih =>
    intro current h
    simp only [slideLoopMeter]
    split
    · exact ⟨current, rfl⟩
    · split
      · exact ⟨current, rfl⟩
      · split
        · exact ⟨current, rfl⟩
        · split
          · exact ⟨current, rfl⟩
          · rename_i h1 _ _ _
            have hb : isInBounds ⟨current.x + (DIRECTION_VECTORS direction).x,
                current.y + (DIRECTION_VECTORS direction).y⟩ boardSize = true := by
              simpa using h1
            have hd := distToEdge_step direction current boardSize hb
            exact ih _ (by omega)

/-- The metered slide loop reaches a break within boardSize + 1 iterations,
from any starting cell. -/
theorem slideLoopMeter_total (ship : Ship) (direction : Direction) (ships : List Ship)
    (obstacles : List Obstacle) (boardSize : Nat) (start : Position) :
    ∃ p : Position,
      slideLoopMeter ship direction ships obstacles boardSize (boardSize + 1) start = some p := by
  simp only [slideLoopMeter]
  split
  · exact ⟨start, rfl⟩
  · split
    · exact ⟨start, rfl⟩
    · split
      · exact ⟨start, rfl⟩
      · split
        · exact ⟨start, rfl⟩
        · rename_i h1 _ _ _
          have hb : isInBounds ⟨start.x + (DIRECTION_VECTORS direction).x,
              start.y + (DIRECTION_VECTORS direction).y⟩ boardSize = true := by
            simpa using h1
          exact slideLoopMeter_some_of_lt ship direction ships obstacles boardSize
            boardSize _ (distToEdge_lt direction _ boardSize hb)

/-- Once the metered slide loop reaches a break, extra fuel does not change
the result. -/
theorem slideLoopMeter_mono (ship : Ship) (direction : Direction) (ships : List Ship)
    (obstacles : List Obstacle) (boardSize : Nat) :
    ∀ (fuel fuel' : Nat) (current : Position) (p : Position),
      slideLoopMeter ship direction ships obstacles boardSize fuel current = some p →
      fuel ≤ fuel' →
      slideLoopMeter ship direction ships obstacles boardSize fuel' current = some p := by
  intro fuel
  induction fuel with
  | zero => intro fuel' current p h; simp [slideLoopMeter] at h
  | succ n ih =>
    intro fuel' current p h hle
    obtain ⟨m, rfl⟩ : ∃ m, fuel' = m + 1 := ⟨fuel' - 1, by omega⟩
    simp only [slideLoopMeter] at h ⊢
    split at h
    · rename_i h1
      simpa [h1] using h
    · rename_i h1
      split at h
      · rename_i h2
        simp only [if_neg h1, if_pos h2]
        exact h
      · rename_i h2
        split at h
        · rename_i h3
          simp only [if_neg h1, if_neg h2, if_pos h3]
          exact h
        · rename_i h3
          split at h
          · rename_i h4
            simp only [if_neg h1, if_neg h2, if_neg h3, if_pos h4]
            exact h
          · rename_i h4
            simp only [if_neg h1, if_neg h2, if_neg h3, if_neg h4]
            exact ih m _ p h (by omega)

/-- When the metered slide loop reaches a break, the fueled slide loop with
the same fuel returns the same cell. -/
theorem slideLoop_eq_of_meter (ship : Ship) (direction : Direction) (ships : List Ship)
    (obstacles : List Obstacle) (boardSize : Nat) :
    ∀ (fuel : Nat) (current : Position) (p : Position),
      slideLoopMeter ship direction ships obstacles boardSize fuel current = some p →
      slideLoop ship direction ships obstacles boardSize fuel current = p := by
  intro fuel
  induction fuel with
  | zero => intro current p h; simp [slideLoopMeter] at h
  | succ n ih =>
    intro current p h
    simp only [slideLoopMeter] at h
    simp only [slideLoop]
    split at h
    · rename_i h1
      simp only [if_pos h1]
      exact Option.some.inj h
    · rename_i h1
      split at h
      · rename_i h2
        simp only [if_neg h1, if_pos h2]
        exact Option.some.inj h
      · rename_i h2
        split at h
        · rename_i h3
          simp only [if_neg h1, if_neg h2, if_pos h3]
          exact Option.some.inj h
        · rename_i h3
          split at h
          · rename_i h4
            simp only [if_neg h1, if_neg h2, if_neg h3, if_pos h4]
            exact Option.some.inj h
          · rename_i h4
            simp only [if_neg h1, if_neg h2, if_neg h3, if_neg h4]
            exact ih _ p h

/-- findShipIdx returns none exactly when no ship of the color is present. -/
theorem findShipIdx_eq_none_iff (c : ShipColor) :
    ∀ l : List Ship, findShipIdx c l = none ↔ ∀ s ∈ l, s.color ≠ c := by
  intro l
  induction l with
  | nil => simp [findShipIdx]
  | cons a rest ih =>
    by_cases ha : a.color = c
    · simp [findShipIdx, ha]
    · simp [findShipIdx, ha, Option.map_eq_none', ih]

/-- The ship returned by findShipIdx has the requested color. -/
theorem findShipIdx_color (c : ShipColor) :
    ∀ (l : List Ship) (i : Nat) (s : Ship),
      findShipIdx c l = some (i, s) → s.color = c := by
  intro l
  induction l with
  | nil => intro i s h; simp [findShipIdx] at h
  | cons a rest ih =>
    intro i s h
    by_cases ha : a.color = c
    · simp only [findShipIdx, if_pos ha] at h
      obtain ⟨_, rfl⟩ := Prod.mk.injEq .. ▸ Option.some.inj h
      exact ha
    · simp only [findShipIdx, if_neg ha, Option.map_eq_some'] at h
      obtain ⟨⟨j, t⟩, hj, he⟩ := h
      obtain ⟨_, rfl⟩ := Prod.mk.injEq .. ▸ he
      exact ih j t hj

/-- The ship returned by findShipIdx is what find? with the same color test
returns. -/
theorem findShipIdx_find? (c : ShipColor) :
    ∀ (l : List Ship) (i : Nat) (s : Ship),
      findShipIdx c l = some (i, s) →
      l.find? (fun t => t.color == c) = some s := by
  intro l
  induction l with
  | nil => intro i s h; simp [findShipIdx] at h
  | cons a rest ih =>
    intro i s h
    by_cases ha : a.color = c
    · simp only [findShipIdx, if_pos ha] at h
      obtain ⟨_, rfl⟩ := Prod.mk.injEq .. ▸ Option.some.inj h
      simp [List.find?_cons, ha]
    · simp only [findShipIdx, if_neg ha, Option.map_eq_some'] at h
      obtain ⟨⟨j, t⟩, hj, he⟩ := h
      obtain ⟨_, rfl⟩ := Prod.mk.injEq .. ▸ he
      have : (a.color == c) = false := by simpa using ha
      simp [List.find?_cons, this]
      exact ih j t hj

/-- Replacing the ship found by findShipIdx with a ship of the same color
makes find? with that color test return the replacement. -/
theorem findShipIdx_set_find? (c : ShipColor) :
    ∀ (l : List Ship) (i : Nat) (s : Ship) (s' : Ship),
      findShipIdx c l = some (i, s) → s'.color = c →
      (l.set i s').find? (fun t => t.color == c) = some s' := by
  intro l
  induction l with
  | nil => intro i s s' h _; simp [findShipIdx] at h
  | cons a rest ih =>
    intro i s s' h hc
    by_cases ha : a.color = c
    · simp only [findShipIdx, if_pos ha] at h
      obtain ⟨hi, rfl⟩ := Prod.mk.injEq .. ▸ Option.some.inj h
      subst hi
      simp [List.set, List.find?_cons, hc]
    · simp only [findShipIdx, if_neg ha, Option.map_eq_some'] at h
      obtain ⟨⟨j, t⟩, hj, he⟩ := h
      obtain ⟨hi, rfl⟩ := Prod.mk.injEq .. ▸ he
      subst hi
      have hb : (a.color == c) = false := by simpa using ha
      simp only [List.set, List.find?_cons, hb, cond_false]
      exact ih j t s' hj hc

/-- The ship-cloning map in createGameState is the identity on the list. -/
theorem ships_clone_id :
    ∀ l : List Ship, l.map (fun s => { color := s.color, position := s.position : Ship }) = l := by
  intro l
  induction l with
  | nil => rfl
  | cons a rest ih => simp [ih]

/-- Strings built from Nat numerals below 100 have at most two characters. -/
theorem natRepr_length_le_two : ∀ n : Nat, n < 100 → (toString n).length ≤ 2 := by
  decide

/-- C6: for all integers moveCount and optimalMoves with d = moveCount -
optimalMoves ≥ 0, calculateStarRating returns 5 when d = 0, 4 when d = 1,
3 when 1 < d ≤ 3, 2 when 3 < d ≤ 5, and 1 when d > 5; the result lies in
[1, 5], and the eight concrete boundary values from the spec hold. -/
theorem calculateStarRating_spec :
    (∀ m o : Int, 0 ≤ m - o →
      (m - o = 0 → calculateStarRating m o = 5) ∧
      (m - o = 1 → calculateStarRating m o = 4) ∧
      (1 < m - o → m - o ≤ 3 → calculateStarRating m o = 3) ∧
      (3 < m - o → m - o ≤ 5 → calculateStarRating m o = 2) ∧
      (5 < m - o → calculateStarRating m o = 1) ∧
      1 ≤ calculateStarRating m o ∧ calculateStarRating m o ≤ 5) ∧
    calculateStarRating 5 5 = 5 ∧ calculateStarRating 6 5 = 4 ∧
    calculateStarRating 7 5 = 3 ∧ calculateStarRating 8 5 = 3 ∧
    calculateStarRating 9 5 = 2 ∧ calculateStarRating 10 5 = 2 ∧
    calculateStarRating 11 5 = 1 ∧ calculateStarRating 20 5 = 1 := by
  refine ⟨?_, by decide, by decide, by decide, by decide, by decide, by decide, by decide,
    by decide⟩
  intro m o h
  simp only [calculateStarRating]
  split_ifs <;> omega

/-- Witness for C6 at concrete inputs with the nonnegativity hypothesis
discharged. -/
theorem calculateStarRating_spec_witness : calculateStarRating 7 5 = 3 :=
  ((calculateStarRating_spec.1 7 5 (by decide)).2.2.1 (by decide) (by decide))

/-- C4 counterexample: a piece already outside the board stays outside, so
without an in-bounds hypothesis on the starting position the returned
position can lie outside [0, boardSize-1]. -/
theorem calculateDestination_inBounds_cex :
    calculateDestination { color := ShipColor.red, position := ⟨16, 5⟩ }
        Direction.right [] [] 16 = ⟨16, 5⟩ ∧
      isInBounds (⟨16, 5⟩ : Position) 16 = false := by
  decide

/-- C4 (amended): when the moving piece starts within board bounds, the
destination returned by calculateDestination is within [0, boardSize-1] on
both axes. -/
theorem calculateDestination_inBounds :
    ∀ (ship : Ship) (direction : Direction) (ships : List Ship)
      (obstacles : List Obstacle) (boardSize : Nat),
      isInBounds ship.position boardSize = true →
      isInBounds (calculateDestination ship direction ships obstacles boardSize)
        boardSize = true := by
  intro ship direction ships obstacles boardSize h
  exact slideLoop_invariant ship direction ships obstacles boardSize
    (fun pos => isInBounds pos boardSize = true)
    (fun cur _ h1 _ _ _ => h1) (boardSize + 1) ship.position h

/-- Witness for C4 at a concrete in-bounds piece. -/
theorem calculateDestination_inBounds_witness :
    isInBounds (⟨0, 0⟩ : Position) 16 = true ∧
      isInBounds (calculateDestination { color := ShipColor.red, position := ⟨0, 0⟩ }
        Direction.right [] [] 16) 16 = true :=
  ⟨by decide,
    calculateDestination_inBounds { color := ShipColor.red, position := ⟨0, 0⟩ }
      Direction.right [] [] 16 (by decide)⟩

/-- C5 counterexample: a piece starting just off the board edge needs
boardSize + 1 loop iterations, so the claimed bound of boardSize iterations
for every input fails (the metered loop with 16 units of fuel does not
reach a break, while 17 suffice). -/
theorem slideLoop_iteration_cex :
    slideLoopMeter { color := ShipColor.red, position := ⟨-1, 0⟩ } Direction.right
        [] [] 16 16 ⟨-1, 0⟩ = none ∧
      slideLoopMeter { color := ShipColor.red, position := ⟨-1, 0⟩ } Direction.right
        [] [] 16 17 ⟨-1, 0⟩ = some ⟨15, 0⟩ := by
  decide

/-- C5 (amended): for every input the sliding loop terminates within
boardSize + 1 iterations (within boardSize iterations when the piece starts
in bounds), the result is unchanged by allowing more iterations, and
calculateDestination deterministically computes that unique result. -/
theorem calculateDestination_terminates :
    ∀ (ship : Ship) (direction : Direction) (ships : List Ship)
      (obstacles : List Obstacle) (boardSize : Nat),
      ∃ p : Position,
        slideLoopMeter ship direction ships obstacles boardSize (boardSize + 1)
          ship.position = some p ∧
        calculateDestination ship direction ships obstacles boardSize = p ∧
        (∀ fuel : Nat, boardSize + 1 ≤ fuel →
          slideLoopMeter ship direction ships obstacles boardSize fuel
            ship.position = some p) ∧
        (isInBounds ship.position boardSize = true →
          slideLoopMeter ship direction ships obstacles boardSize boardSize
            ship.position = some p) := by
  intro ship direction ships obstacles boardSize
  obtain ⟨p, hp⟩ := slideLoopMeter_total ship direction ships obstacles boardSize ship.position
  refine ⟨p, hp, slideLoop_eq_of_meter ship direction ships obstacles boardSize _ _ p hp,
    fun fuel hf =>
      slideLoopMeter_mono ship direction ships obstacles boardSize _ fuel _ p hp hf,
    fun hin => ?_⟩
  obtain ⟨q, hq⟩ := slideLoopMeter_some_of_lt ship direction ships obstacles boardSize
    boardSize ship.position (distToEdge_lt direction ship.position boardSize hin)
  have := slideLoopMeter_mono ship direction ships obstacles boardSize boardSize
    (boardSize + 1) ship.position q hq (by omega)
  rw [hp] at this
  rw [hq, Option.some.inj this]

/-- Witness for C5 at a concrete input, using the stability conjunct at fuel
18 and the in-bounds conjunct at fuel 16. -/
theorem calculateDestination_terminates_witness :
    slideLoopMeter { color := ShipColor.red, position := ⟨0, 0⟩ } Direction.right [] [] 16 18
        ⟨0, 0⟩ =
        some (calculateDestination { color := ShipColor.red, position := ⟨0, 0⟩ }
          Direction.right [] [] 16) ∧
      slideLoopMeter { color := ShipColor.red, position := ⟨0, 0⟩ } Direction.right [] [] 16 16
        ⟨0, 0⟩ =
        some (calculateDestination { color := ShipColor.red, position := ⟨0, 0⟩ }
          Direction.right [] [] 16) := by
  obtain ⟨p, h1, h2, h3, h4⟩ := calculateDestination_terminates
    { color := ShipColor.red, position := ⟨0, 0⟩ } Direction.right [] [] 16
  rw [h2]
  exact ⟨h3 18 (by omega), h4 (by decide)⟩

/-- C3: for valid inputs (every ship in bounds, no ship on an asteroid,
ships at pairwise distinct positions, the mover among the ships), the
destination of calculateDestination is never an asteroid cell nor the
position of any other (differently colored) ship. -/
theorem calculateDestination_no_passthrough :
    ∀ (ship : Ship) (direction : Direction) (ships : List Ship)
      (obstacles : List Obstacle) (boardSize : Nat),
      ship ∈ ships →
      (∀ s ∈ ships, isInBounds s.position boardSize = true) →
      (∀ s ∈ ships, isAsteroid s.position obstacles = false) →
      ships.Pairwise (fun a b => a.position ≠ b.position) →
      isAsteroid (calculateDestination ship direction ships obstacles boardSize)
          obstacles = false ∧
        ∀ s ∈ ships, s.color ≠ ship.color →
          s.position ≠ calculateDestination ship direction ships obstacles boardSize := by
  intro ship direction ships obstacles boardSize hmem hbounds hast hpw
  have hbase : isAsteroid ship.position obstacles = false ∧
      ∀ s ∈ ships, s.color ≠ ship.color → s.position ≠ ship.position := by
    refine ⟨hast ship hmem, fun s hs hc => ?_⟩
    refine hpw.forall (fun a b hab => Ne.symm hab) hs hmem (fun he => hc ?_)
    rw [he]
  have hres := slideLoop_invariant ship direction ships obstacles boardSize
    (fun pos => isAsteroid pos obstacles = false ∧
      ∀ s ∈ ships, s.color ≠ ship.color → s.position ≠ pos)
    (fun cur hP h1 h2 h3 h4 => by
      refine ⟨h2, fun s hs hc heq => ?_⟩
      simp only [isOccupiedByShip, List.any_eq_false] at h3
      have hns := h3 s hs
      simp only [Bool.and_eq_true, bne_iff_ne, beq_iff_eq] at hns
      exact hns ⟨⟨hc, by rw [heq]⟩, by rw [heq]⟩)
    (boardSize + 1) ship.position hbase
  exact hres

/-- Witness for C3 on a concrete valid arrangement: red slides right and
stops adjacent to the blue ship. -/
theorem calculateDestination_no_passthrough_witness :
    isAsteroid (calculateDestination { color := ShipColor.red, position := ⟨0, 0⟩ }
        Direction.right
        [{ color := ShipColor.red, position := ⟨0, 0⟩ },
          { color := ShipColor.blue, position := ⟨3, 0⟩ }]
        [Obstacle.asteroid ⟨5, 5⟩] 16) [Obstacle.asteroid ⟨5, 5⟩] = false ∧
      ∀ s ∈ ([{ color := ShipColor.red, position := ⟨0, 0⟩ },
          { color := ShipColor.blue, position := ⟨3, 0⟩ }] : List Ship),
        s.color ≠ ShipColor.red →
          s.position ≠ calculateDestination { color := ShipColor.red, position := ⟨0, 0⟩ }
            Direction.right
            [{ color := ShipColor.red, position := ⟨0, 0⟩ },
              { color := ShipColor.blue, position := ⟨3, 0⟩ }]
            [Obstacle.asteroid ⟨5, 5⟩] 16 :=
  calculateDestination_no_passthrough
    { color := ShipColor.red, position := ⟨0, 0⟩ } Direction.right
    [{ color := ShipColor.red, position := ⟨0, 0⟩ },
      { color := ShipColor.blue, position := ⟨3, 0⟩ }]
    [Obstacle.asteroid ⟨5, 5⟩] 16
    (by decide) (by decide) (by decide)
    (by simp [List.pairwise_cons])

/-- C7: a force field blocks its cell boundary symmetrically in both
directions; either of its two representations (exit side of the first cell,
matching entry side of the adjacent cell) blocks the crossing; and force
fields on sides perpendicular to the direction of travel never block the
step. -/
theorem forceField_blocks_both_directions :
    ∀ (a b : Position) (d : Direction) (obstacles : List Obstacle),
      b = ⟨a.x + (DIRECTION_VECTORS d).x, a.y + (DIRECTION_VECTORS d).y⟩ →
      (isBlockedByForceField a b d obstacles =
          isBlockedByForceField b a (oppositeDirection d) obstacles) ∧
        (Obstacle.forceField a d ∈ obstacles ∨
            Obstacle.forceField b (oppositeDirection d) ∈ obstacles →
          isBlockedByForceField a b d obstacles = true) ∧
        ((∀ (pos : Position) (e : Direction),
            Obstacle.forceField pos e ∈ obstacles →
              e ≠ d ∧ e ≠ oppositeDirection d) →
          isBlockedByForceField a b d obstacles = false) := by
  intro a b d obstacles _
  refine ⟨?_, ?_, ?_⟩
  · simp only [isBlockedByForceField, oppositeDirection_involutive]
    exact Bool.or_comm _ _
  · intro h
    simp only [isBlockedByForceField, Bool.or_eq_true, List.any_eq_true]
    rcases h with h | h
    · exact Or.inl ⟨Obstacle.forceField a d, h, by simp⟩
    · exact Or.inr ⟨Obstacle.forceField b (oppositeDirection d), h, by simp⟩
  · intro h
    simp only [isBlockedByForceField, Bool.or_eq_false_iff, List.any_eq_false]
    constructor
    · intro o ho
      match o with
      | Obstacle.asteroid _ => simp
      | Obstacle.forceField p e =>
        have := (h p e ho).1
        simp [this]
    · intro o ho
      match o with
      | Obstacle.asteroid _ => simp
      | Obstacle.forceField p e =>
        have := (h p e ho).2
        simp [this]

/-- Witness for C7 on concrete adjacent cells with concrete obstacle sets
for each of the three parts. -/
theorem forceField_blocks_both_directions_witness :
    (isBlockedByForceField ⟨0, 0⟩ ⟨1, 0⟩ Direction.right
        [Obstacle.forceField ⟨1, 0⟩ Direction.left] =
      isBlockedByForceField ⟨1, 0⟩ ⟨0, 0⟩ Direction.left
        [Obstacle.forceField ⟨1, 0⟩ Direction.left]) ∧
      isBlockedByForceField ⟨0, 0⟩ ⟨1, 0⟩ Direction.right
        [Obstacle.forceField ⟨0, 0⟩ Direction.right] = true ∧
      isBlockedByForceField ⟨0, 0⟩ ⟨1, 0⟩ Direction.right
        [Obstacle.forceField ⟨0, 0⟩ Direction.up] = false := by
  refine ⟨(forceField_blocks_both_directions ⟨0, 0⟩ ⟨1, 0⟩ Direction.right
      [Obstacle.forceField ⟨1, 0⟩ Direction.left] (by decide)).1,
    (forceField_blocks_both_directions ⟨0, 0⟩ ⟨1, 0⟩ Direction.right
      [Obstacle.forceField ⟨0, 0⟩ Direction.right] (by decide)).2.1
      (Or.inl (by simp)),
    (forceField_blocks_both_directions ⟨0, 0⟩ ⟨1, 0⟩ Direction.right
      [Obstacle.forceField ⟨0, 0⟩ Direction.up] (by decide)).2.2 ?_⟩
  intro pos e h
  simp only [List.mem_singleton, Obstacle.forceField.injEq] at h
  rw [h.2]
  exact ⟨by decide, by decide⟩

/-- C2 counterexample: createGameState always sets completed to false, so on
a puzzle whose red ship starts on the astronaut the claimed equivalence
between completed and red-on-goal fails. -/
theorem completed_iff_red_on_goal_cex :
    ¬(((createGameState 0 puzzleRedOnGoal).completed = true) ↔
        checkWin (createGameState 0 puzzleRedOnGoal).ships
          (createGameState 0 puzzleRedOnGoal).puzzle.astronaut = true) := by
  decide

/-- C2 (amended): completed is equivalent to red-on-goal for every attempt
created from a puzzle whose red ship does not start on the astronaut, and
applyMove preserves the equivalence for every attempt that satisfies it. -/
theorem completed_iff_red_on_goal :
    (∀ (now : Int) (p : Puzzle),
      checkWin p.ships p.astronaut = false →
      ((createGameState now p).completed = true ↔
        checkWin (createGameState now p).ships
          (createGameState now p).puzzle.astronaut = true)) ∧
    (∀ (now : Int) (st : GameState) (c : ShipColor) (d : Direction),
      (st.completed = true ↔ checkWin st.ships st.puzzle.astronaut = true) →
      ((applyMove now st c d).completed = true ↔
        checkWin (applyMove now st c d).ships
          (applyMove now st c d).puzzle.astronaut = true)) := by
  constructor
  · intro now p h
    simp [createGameState, ships_clone_id, h]
  · intro now st c d h
    cases hf : findShipIdx c st.ships with
    | none => simpa [applyMove, hf] using h
    | some v =>
      obtain ⟨i, s⟩ := v
      simp only [applyMove, hf]
      split
      · exact h
      · simp

/-- Witness for C2 on the concrete test puzzle, before and after the winning
move. -/
theorem completed_iff_red_on_goal_witness :
    (((createGameState 0 puzzleA).completed = true) ↔
        checkWin (createGameState 0 puzzleA).ships
          (createGameState 0 puzzleA).puzzle.astronaut = true) ∧
      (((applyMove 0 (createGameState 0 puzzleA) ShipColor.red
            Direction.right).completed = true) ↔
        checkWin (applyMove 0 (createGameState 0 puzzleA) ShipColor.red
            Direction.right).ships
          (applyMove 0 (createGameState 0 puzzleA) ShipColor.red
            Direction.right).puzzle.astronaut = true) :=
  ⟨completed_iff_red_on_goal.1 0 puzzleA (by decide),
    completed_iff_red_on_goal.2 0 (createGameState 0 puzzleA) ShipColor.red
      Direction.right (completed_iff_red_on_goal.1 0 puzzleA (by decide))⟩

/-- C8: applyMove with an absent ship color, or with a move whose resolved
destination equals the ship's current position, returns the attempt
unchanged (hence same ships, moves, moveCount, completed flag and
completion time) and signals no error. -/
theorem applyMove_noop :
    ∀ (now : Int) (st : GameState) (c : ShipColor) (d : Direction),
      ((∀ s ∈ st.ships, s.color ≠ c) → applyMove now st c d = st) ∧
      (∀ (i : Nat) (s : Ship),
        findShipIdx c st.ships = some (i, s) →
        calculateDestination s d st.ships st.puzzle.obstacles 16 = s.position →
        applyMove now st c d = st) := by
  intro now st c d
  constructor
  · intro h
    have hn : findShipIdx c st.ships = none := (findShipIdx_eq_none_iff c st.ships).2 h
    simp [applyMove, hn]
  · intro i s hf hd
    simp [applyMove, hf, hd]

/-- Witness for C8: a move against a color not on the board, and a move that
cannot change position, both leave the concrete states unchanged. -/
theorem applyMove_noop_witness :
    applyMove 0 (createGameState 0 puzzleRedOnGoal) ShipColor.blue Direction.up =
        createGameState 0 puzzleRedOnGoal ∧
      applyMove 0 (createGameState 0 puzzleA) ShipColor.red Direction.left =
        createGameState 0 puzzleA :=
  ⟨(applyMove_noop 0 (createGameState 0 puzzleRedOnGoal) ShipColor.blue
      Direction.up).1 (by decide),
    (applyMove_noop 0 (createGameState 0 puzzleA) ShipColor.red Direction.left).2 0
      { color := ShipColor.red, position := ⟨0, 0⟩ } (by decide) (by decide)⟩

/-- C10: applyMove recomputes completed from the post-move positions, so an
effective move that slides the red ship to a cell other than the astronaut
yields completed = false and no completion time, even from a completed
attempt; nothing in applyMove rejects moves after completion. -/
theorem applyMove_uncompletes :
    ∀ (now : Int) (st : GameState) (d : Direction) (i : Nat) (s : Ship),
      st.completed = true →
      findShipIdx ShipColor.red st.ships = some (i, s) →
      ¬((calculateDestination s d st.ships st.puzzle.obstacles 16).x = s.position.x ∧
        (calculateDestination s d st.ships st.puzzle.obstacles 16).y = s.position.y) →
      ¬((calculateDestination s d st.ships st.puzzle.obstacles 16).x =
          st.puzzle.astronaut.x ∧
        (calculateDestination s d st.ships st.puzzle.obstacles 16).y =
          st.puzzle.astronaut.y) →
      (applyMove now st ShipColor.red d).completed = false ∧
        (applyMove now st ShipColor.red d).completionTime = none := by
  intro now st d i s _ hf hne hng
  have hcolor : s.color = ShipColor.red := findShipIdx_color ShipColor.red st.ships i s hf
  have hfind := findShipIdx_set_find? ShipColor.red st.ships i s
    { s with position := calculateDestination s d st.ships st.puzzle.obstacles 16 } hf hcolor
  have hwin : checkWin (st.ships.set i
      { s with position := calculateDestination s d st.ships st.puzzle.obstacles 16 })
      st.puzzle.astronaut = false := by
    simp only [checkWin, hfind]
    rw [Bool.eq_false_iff]
    simp only [ne_eq, Bool.and_eq_true, beq_iff_eq]
    exact hng
  simp only [applyMove, hf]
  rw [if_neg hne]
  constructor <;> simp [hwin]

/-- Witness for C10: after solving the concrete test puzzle, sliding red
down leaves a not-completed attempt with no completion time. -/
theorem applyMove_uncompletes_witness :
    (applyMove 5 (applyMove 0 (createGameState 0 puzzleA) ShipColor.red Direction.right)
        ShipColor.red Direction.down).completed = false ∧
      (applyMove 5 (applyMove 0 (createGameState 0 puzzleA) ShipColor.red Direction.right)
        ShipColor.red Direction.down).completionTime = none :=
  applyMove_uncompletes 5
    (applyMove 0 (createGameState 0 puzzleA) ShipColor.red Direction.right)
    Direction.down 0 { color := ShipColor.red, position := ⟨15, 0⟩ }
    (by decide) (by decide) (by decide) (by decide)

/-- C1: validateSolution replays the submitted moves from a fresh attempt;
a one-slide solution of a puzzle with optimal move count 1 validates as a
win, and the empty move list validates as false whenever the red ship does
not start on the astronaut. -/
theorem validateSolution_replay :
    (∀ (p : Puzzle) (d : Direction) (i : Nat) (s : Ship),
      p.optimalMoves = 1 →
      findShipIdx ShipColor.red p.ships = some (i, s) →
      calculateDestination s d p.ships p.obstacles 16 = p.astronaut →
      validateSolution p [{ ship := ShipColor.red, direction := d }] = true) ∧
    (∀ p : Puzzle,
      (∀ s : Ship, p.ships.find? (fun t => t.color == ShipColor.red) = some s →
        ¬(s.position.x = p.astronaut.x ∧ s.position.y = p.astronaut.y)) →
      validateSolution p [] = false) := by
  constructor
  · intro p d i s _ hf hd
    have h0 : createGameState 0 p =
        { puzzle := p, ships := p.ships, moves := [], moveCount := 0, startTime := 0,
          completed := false, completionTime := none } := by
      simp [createGameState, ships_clone_id]
    simp only [validateSolution, List.foldl_cons, List.foldl_nil, h0]
    simp only [applyMove, hf]
    by_cases hcase : (calculateDestination s d p.ships p.obstacles 16).x = s.position.x ∧
        (calculateDestination s d p.ships p.obstacles 16).y = s.position.y
    · rw [if_pos hcase]
      have hfind := findShipIdx_find? ShipColor.red p.ships i s hf
      rw [hd] at hcase
      simp only [checkWin, hfind, Bool.and_eq_true, beq_iff_eq]
      exact ⟨hcase.1.symm, hcase.2.symm⟩
    · rw [if_neg hcase]
      have hcolor : s.color = ShipColor.red := findShipIdx_color ShipColor.red p.ships i s hf
      have hfind := findShipIdx_set_find? ShipColor.red p.ships i s
        { s with position := calculateDestination s d p.ships p.obstacles 16 } hf hcolor
      rw [hd] at hfind
      simp [checkWin, hfind, hd]
  · intro p h
    have h0 : (createGameState 0 p).ships = p.ships := ships_clone_id p.ships
    simp only [validateSolution, List.foldl_nil, h0]
    cases hfind : p.ships.find? (fun t => t.color == ShipColor.red) with
    | none => simp [checkWin, hfind]
    | some s =>
      simp only [checkWin, hfind]
      rw [Bool.eq_false_iff]
      simp only [ne_eq, Bool.and_eq_true, beq_iff_eq]
      exact h s hfind

/-- Witness for C1 on the concrete test puzzle: the one-move solution
validates, the empty move list does not. -/
theorem validateSolution_replay_witness :
    validateSolution puzzleA [{ ship := ShipColor.red, direction := Direction.right }] = true ∧
      validateSolution puzzleA [] = false :=
  ⟨validateSolution_replay.1 puzzleA Direction.right 0
      { color := ShipColor.red, position := ⟨0, 0⟩ } (by decide) (by decide) (by decide),
    validateSolution_replay.2 puzzleA (by
      intro s h
      rw [show puzzleA.ships.find? (fun t => t.color == ShipColor.red) =
        some { color := ShipColor.red, position := ⟨0, 0⟩ } from rfl] at h
      injection h with h
      subst h
      decide)⟩

/-- C9: the share text is the puzzle identifier line, a row of exactly five
star glyphs (rating filled then 5 - rating empty), a moves line with the
player's move count over the optimal count, and a time line whose minutes
are seconds div 60 with the remaining seconds zero-padded to exactly two
digits. -/
theorem generateShareText_spec :
    ∀ (pid opt m t r : Nat), 1 ≤ r → r ≤ 5 →
      generateShareText pid opt m t r =
          "SlideCraft #" ++ toString pid ++ "\n" ++
            (strRepeat '★' r ++ strRepeat '☆' (5 - r)) ++ "\nMoves: " ++ toString m ++
            "/" ++ toString opt ++ "\nTime: " ++ toString (t / 60) ++ ":" ++
            padStart (toString (t % 60)) 2 '0' ∧
        (strRepeat '★' r ++ strRepeat '☆' (5 - r)).length = 5 ∧
        (padStart (toString (t % 60)) 2 '0').length = 2 := by
  intro pid opt m t r h1 h5
  refine ⟨?_, ?_, ?_⟩
  · simp [generateShareText, formatTime, String.append_assoc]
  · simp only [strRepeat, String.length_append]
    simp
    omega
  · have hlen : (toString (t % 60)).length ≤ 2 :=
      natRepr_length_le_two (t % 60) (by omega)
    simp only [padStart, String.length_append]
    simp
    omega

/-- Witness for C9 at concrete inputs with the rating-range hypotheses
discharged. -/
theorem generateShareText_spec_witness :
    generateShareText 7 5 6 65 4 =
        "SlideCraft #" ++ toString 7 ++ "\n" ++
          (strRepeat '★' 4 ++ strRepeat '☆' (5 - 4)) ++ "\nMoves: " ++ toString 6 ++
          "/" ++ toString 5 ++ "\nTime: " ++ toString (65 / 60) ++ ":" ++
          padStart (toString (65 % 60)) 2 '0' ∧
      (strRepeat '★' 4 ++ strRepeat '☆' (5 - 4)).length = 5 ∧
      (padStart (toString (65 % 60)) 2 '0').length = 2 :=
  generateShareText_spec 7 5 6 65 4 (by decide) (by decide)

end SlideCraft
